import Mathlib

/-
Verification of the pose_server.py producer/mailbox/broadcast pipeline.

The shallow embedding below translates the shared-state code of
pose_server.py into Lean:
  - the shared dict last_payload becomes the record Payload, with Option
    fields (none models a key that is absent or holds None);
  - the camera worker writes become explicit field-store functions, kept in
    the exact order of the source, so that interleavings with a concurrent
    reader can be expressed as reading after a prefix of the stores;
  - get_payload, compute_mid_hip_z, landmarks_to_normalized_list and the
    broadcast tick body are translated directly;
  - time values use the rationals; TARGET_FPS = 30 and
    FRAME_DELAY = 1 / TARGET_FPS as in the source.
-/

/-- One raw MediaPipe landmark as the camera worker sees it: attributes
x, y, z and an optional visibility. -/
structure RawLandmark where
  x : ℚ
  y : ℚ
  z : ℚ
  visibility : Option ℚ
deriving Repr, DecidableEq

/-- One entry of the normalized landmark list built by
landmarks_to_normalized_list: a dict with keys id, x, y, z, visibility. -/
structure Landmark where
  id : ℕ
  x : ℚ
  y : ℚ
  z : ℚ
  visibility : Option ℚ
deriving Repr, DecidableEq

/-- Translation of landmarks_to_normalized_list: enumerate the landmark
sequence and emit one dict per landmark, with id equal to the index. -/
def landmarks_to_normalized_list (landmarks : List RawLandmark) : List Landmark :=
  landmarks.enum.map
    (fun p => { id := p.1, x := p.2.x, y := p.2.y, z := p.2.z, visibility := p.2.visibility })

/-- Translation of compute_mid_hip_z: return the mean of the z components at
indices 23 and 24; any indexing failure is caught by the bare except and
yields 0. Both indices are in range exactly when 24 < length. -/
def compute_mid_hip_z (landmarks : List RawLandmark) : ℚ :=
  if h : 24 < landmarks.length then
    ((landmarks.get ⟨23, by omega⟩).z + (landmarks.get ⟨24, h⟩).z) / 2
  else 0

/-- The shared last_payload dict. Each field is an Option: none models a key
that is absent from the dict or maps to None. main initialises the dict with
only timestamp and landmarks present, both None. -/
structure Payload where
  timestamp : Option ℚ
  landmarks : Option (List Landmark)
  image_w : Option ℕ
  image_h : Option ℕ
  mid_hip_z : Option ℚ
  fps : Option ℚ
deriving Repr, DecidableEq

/-- The initial dict built in main: timestamp None, landmarks None, and no
other keys. -/
def initPayload : Payload :=
  { timestamp := none, landmarks := none, image_w := none, image_h := none,
    mid_hip_z := none, fps := none }

/-- The values one camera iteration with a detection stores into
last_payload: the capture time, the raw landmark list, the frame width and
height, and the measured fps. -/
structure IterData where
  timestamp : ℚ
  lms : List RawLandmark
  w : ℕ
  h : ℕ
  fps : ℚ
deriving Repr, DecidableEq

/-- The six individual dict stores the camera worker performs on a detection
iteration, in the exact order of the source: timestamp, landmarks, image_w,
image_h, mid_hip_z, fps. Each store is one atomic step; the sequence as a
whole is not atomic. -/
def detectionStores (d : IterData) : List (Payload → Payload) :=
  [ fun p => { p with timestamp := some d.timestamp },
    fun p => { p with landmarks := some (landmarks_to_normalized_list d.lms) },
    fun p => { p with image_w := some d.w },
    fun p => { p with image_h := some d.h },
    fun p => { p with mid_hip_z := some (compute_mid_hip_z d.lms) },
    fun p => { p with fps := some d.fps } ]

/-- Run a list of stores left to right on a payload state. Running a proper
take of detectionStores models a reader arriving mid-update. -/
def applyStores (stores : List (Payload → Payload)) (p : Payload) : Payload :=
  stores.foldl (fun s f => f s) p

/-- A complete detection-iteration update of last_payload: all six stores. -/
def writeDetection (d : IterData) (p : Payload) : Payload :=
  applyStores (detectionStores d) p

/-- The no-detection branch of the camera worker: the single store
last_payload[landmarks] = None; every other key is left untouched. -/
def writeNoDetection (p : Payload) : Payload :=
  { p with landmarks := none }

/-- The payload state after a full detection write, independent of the
previous state, since all six fields are overwritten. -/
def fullPayload (d : IterData) : Payload :=
  { timestamp := some d.timestamp,
    landmarks := some (landmarks_to_normalized_list d.lms),
    image_w := some d.w, image_h := some d.h,
    mid_hip_z := some (compute_mid_hip_z d.lms), fps := some d.fps }

/-- Translation of the get_payload closure in main: if
last_payload[landmarks] is None return None, otherwise return a shallow copy
of the dict. At the value level the shallow copy is the payload itself. -/
def get_payload (p : Payload) : Option Payload :=
  if p.landmarks = none then none else some p

/-- get_payload as an operation on the mailbox state: the source body
contains no store into last_payload, so the post-state equals the
pre-state. -/
def get_payload_op (p : Payload) : Option Payload × Payload :=
  (get_payload p, p)

/-- n consecutive get_payload reads with no intervening write, each applied
to the post-state of the previous one; returns the list of results and the
final state. -/
def readN : ℕ → Payload → List (Option Payload) × Payload
  | 0, p => ([], p)
  | n + 1, p =>
    let r := get_payload_op p
    let rest := readN n r.2
    (r.1 :: rest.1, rest.2)

/-- A websocket subscriber in the CONNECTED set. The sendFails flag models a
closed or broken connection whose send raises when awaited. -/
structure Subscriber where
  id : ℕ
  sendFails : Bool
deriving Repr, DecidableEq

/-- Outcome of one awaited ws.send inside asyncio.gather with
return_exceptions True: the message is delivered, or the raised exception is
captured as a value. -/
inductive SendResult where
  | delivered (msg : String) : SendResult
  | failed : SendResult
deriving Repr, DecidableEq

/-- Render an optional rational as JSON: None becomes null. -/
def jsonOptQ : Option ℚ → String
  | none => "null"
  | some q => toString q

/-- Render an optional natural as JSON: None becomes null. -/
def jsonOptNat : Option ℕ → String
  | none => "null"
  | some n => toString n

/-- Render one normalized-landmark dict as a JSON object. -/
def jsonLandmark (lm : Landmark) : String :=
  "\x7b\"id\": " ++ toString lm.id ++ ", \"x\": " ++ toString lm.x ++
    ", \"y\": " ++ toString lm.y ++ ", \"z\": " ++ toString lm.z ++
    ", \"visibility\": " ++ jsonOptQ lm.visibility ++ "\x7d"

/-- Render the optional landmark list as a JSON array or null. -/
def jsonLandmarks : Option (List Landmark) → String
  | none => "null"
  | some lms => "[" ++ String.intercalate ", " (lms.map jsonLandmark) ++ "]"

/-- Model of json.dumps(payload): one deterministic serialization of the
payload dict. The exact byte layout of the wire encoding library is out of
scope; what matters for the claims is that this is a single function of the
payload, computed once per tick. -/
def json_dumps (p : Payload) : String :=
  "\x7b\"timestamp\": " ++ jsonOptQ p.timestamp ++
    ", \"landmarks\": " ++ jsonLandmarks p.landmarks ++
    ", \"image_w\": " ++ jsonOptNat p.image_w ++
    ", \"image_h\": " ++ jsonOptNat p.image_h ++
    ", \"mid_hip_z\": " ++ jsonOptQ p.mid_hip_z ++
    ", \"fps\": " ++ jsonOptQ p.fps ++ "\x7d"

/-- One awaited send of a message to a subscriber, as observed through
asyncio.gather with return_exceptions True: a broken connection yields a
captured failure, any other yields delivery. -/
def sendTo (msg : String) (s : Subscriber) : SendResult :=
  if s.sendFails then SendResult.failed else SendResult.delivered msg

/-- The body of one broadcast_loop tick, translated from the source: read
the payload via get_payload_fn (the first argument is that read result); if
it is None or its landmarks entry is None, send nothing; otherwise serialize
once with json_dumps, snapshot the CONNECTED set into webs, and gather one
send per subscriber with exceptions captured. The tick never mutates
CONNECTED, so the returned registry is the input registry. -/
def broadcastTick (p : Option Payload) (webs : List Subscriber) :
    List (Subscriber × SendResult) × List Subscriber :=
  match p with
  | none => ([], webs)
  | some pay =>
    match pay.landmarks with
    | none => ([], webs)
    | some _ =>
      let message := json_dumps pay
      (webs.map (fun w => (w, sendTo message w)), webs)

/-- TARGET_FPS from the source. -/
def TARGET_FPS : ℚ := 30

/-- FRAME_DELAY = 1.0 / TARGET_FPS from the source. -/
def FRAME_DELAY : ℚ := 1 / TARGET_FPS

/-- The pacing step at the bottom of the camera worker loop: compute
to_sleep = FRAME_DELAY - elapsed and sleep for it only when it is positive;
otherwise do not sleep at all. Returns the slept duration. -/
def camera_sleep (elapsed : ℚ) : ℚ :=
  let to_sleep := FRAME_DELAY - elapsed
  if to_sleep > 0 then to_sleep else 0

/-- The pacing step at the bottom of the broadcast loop: compute
to_sleep = FRAME_DELAY - elapsed and await it when positive; otherwise await
a fixed 0.001 seconds. Returns the awaited duration. -/
def broadcast_sleep (elapsed : ℚ) : ℚ :=
  let to_sleep := FRAME_DELAY - elapsed
  if to_sleep > 0 then to_sleep else 1 / 1000

/-- The data of one camera loop iteration whose cap.read succeeded: the
capture-time values, the pose result (none when pose.process found no
landmarks), and whether the q key was pressed at the end of the
iteration. -/
structure FrameIter where
  timestamp : ℚ
  detection : Option (List RawLandmark)
  w : ℕ
  h : ℕ
  fps : ℚ
  qPressed : Bool
deriving Repr, DecidableEq

/-- One camera loop iteration input: either cap.read returned ret = False,
or it returned a frame with the iteration data. -/
inductive CamInput where
  | readFail : CamInput
  | frame (it : FrameIter) : CamInput
deriving Repr, DecidableEq

/-- The payload update of one successful camera iteration: the detection
branch performs the full six-store write, the no-detection branch stores
only landmarks = None. -/
def iterWrite (it : FrameIter) (p : Payload) : Payload :=
  match it.detection with
  | some lms =>
    writeDetection { timestamp := it.timestamp, lms := lms, w := it.w, h := it.h, fps := it.fps } p
  | none => writeNoDetection p

/-- Run of the camera worker loop over a list of iteration inputs,
translated from the source: a readFail input breaks out of the loop with no
payload write; a frame input performs exactly one payload write and then
breaks if q was pressed; an exhausted input list models the stop event being
observed at the top of the loop. In every case the finally block sets the
stop event on the way out. Returns the final payload, the number of payload
writes performed, and whether the stop event is set on exit. -/
def camRun : List CamInput → Payload → Payload × ℕ × Bool
  | [], p => (p, 0, true)
  | CamInput.readFail :: _, p => (p, 0, true)
  | CamInput.frame it :: rest, p =>
    let p2 := iterWrite it p
    if it.qPressed then (p2, 1, true)
    else
      let r := camRun rest p2
      (r.1, r.2.1 + 1, r.2.2)

/-- Concrete iteration data shared by several concrete evaluations below. -/
def iterD : IterData := { timestamp := 7, lms := [], w := 640, h := 480, fps := 30 }

/-- A subscriber whose connection is broken, so its awaited send raises. -/
def subBroken : Subscriber := { id := 1, sendFails := true }

/-- A healthy subscriber. -/
def sub2 : Subscriber := { id := 2, sendFails := false }

/-- Another healthy subscriber. -/
def sub3 : Subscriber := { id := 3, sendFails := false }

/-- One raw landmark used to build a concrete detection. -/
def rawA : RawLandmark := { x := 0, y := 0, z := 1, visibility := none }

/-- Iteration data A: the write the camera worker completed in full. -/
def iterA : IterData := { timestamp := 1, lms := [rawA], w := 640, h := 480, fps := 30 }

/-- Iteration data B: the next write, with a different timestamp and a
different landmark list. -/
def iterB : IterData := { timestamp := 2, lms := [], w := 640, h := 480, fps := 30 }

/-- The shared-dict state a concurrent get_payload can observe: the write
for iteration A completed in full, and of the six stores of iteration B only
the first (the timestamp store) has executed when the reader runs. -/
def tornReadState : Payload :=
  applyStores ((detectionStores iterB).take 1) (writeDetection iterA initPayload)

/-- C7: compute_mid_hip_z returns the arithmetic mean of the z components at
the fixed indices 23 and 24 whenever both are available, which is exactly
when the landmark sequence has at least 25 elements, and returns 0 when it
is shorter; the Lean function is total, mirroring the bare except that makes
the source function never raise. -/
theorem compute_mid_hip_z_spec (lms : List RawLandmark) :
    (∀ h : 25 ≤ lms.length,
      compute_mid_hip_z lms =
        ((lms.get ⟨23, by omega⟩).z + (lms.get ⟨24, by omega⟩).z) / 2) ∧
    (lms.length < 25 → compute_mid_hip_z lms = 0) := by
  constructor
  · intro h
    unfold compute_mid_hip_z
    rw [dif_pos (show 24 < lms.length by omega)]
  · intro h
    unfold compute_mid_hip_z
    rw [dif_neg (show ¬ 24 < lms.length by omega)]

/-- A concrete 25-element landmark list, every element rawA with z = 1. -/
def lms25 : List RawLandmark := List.replicate 25 rawA

/-- Witness for compute_mid_hip_z_spec: on the 25-element list the result is
the mean (1 + 1) / 2 = 1 of the z values at indices 23 and 24, and on the
empty list the result is 0. -/
theorem compute_mid_hip_z_spec_witness :
    compute_mid_hip_z lms25 = 1 ∧ compute_mid_hip_z [] = 0 := by
  constructor
  · have h := (compute_mid_hip_z_spec lms25).1 (by decide)
    rw [h]
    have h23 : (lms25.get ⟨23, by decide⟩).z = 1 := by
      rw [List.get_eq_getElem]
      unfold lms25
      rw [List.getElem_replicate]
      rfl
    have h24 : (lms25.get ⟨24, by decide⟩).z = 1 := by
      rw [List.get_eq_getElem]
      unfold lms25
      rw [List.getElem_replicate]
      rfl
    rw [h23, h24]
    norm_num
  · exact (compute_mid_hip_z_spec []).2 (by decide)

/-- C5: the mailbox write replaces and never queues. After the full writes
for iterations a then b, the shared dict equals the full payload of b
regardless of the earlier state, so a subsequent read returns the content of
b and never that of a; when the second write is a no-detection write, the
read returns None, again never the content of a. -/
theorem mailbox_last_write_wins (a b : IterData) (s : Payload) :
    writeDetection b (writeDetection a s) = fullPayload b ∧
    get_payload (writeDetection b (writeDetection a s)) = some (fullPayload b) ∧
    get_payload (writeNoDetection (writeDetection a s)) = none :=
  ⟨rfl, rfl, rfl⟩

/-- C6: get_payload has peek semantics. As an operation on the mailbox it
leaves the state unchanged, and n consecutive reads with no intervening
write leave the state unchanged and all return the same value, namely
get_payload of the original state. -/
theorem mailbox_read_peek (n : ℕ) (p : Payload) :
    (get_payload_op p).2 = p ∧
    (readN n p).2 = p ∧
    ∀ v ∈ (readN n p).1, v = get_payload p := by
  refine ⟨rfl, ?_⟩
  induction n with
  | zero =>
    refine ⟨rfl, ?_⟩
    intro v hv
    simp [readN] at hv
  | succ k ih =>
    refine ⟨ih.1, ?_⟩
    intro v hv
    simp only [readN, get_payload_op, List.mem_cons] at hv
    rcases hv with h | h
    · simpa [get_payload_op] using h
    · exact ih.2 v h

/-- Witness for mailbox_read_peek: two consecutive reads of the initial dict
leave it unchanged, and the first result equals get_payload of the dict. -/
theorem mailbox_read_peek_witness :
    (readN 2 initPayload).2 = initPayload ∧ none = get_payload initPayload :=
  ⟨(mailbox_read_peek 2 initPayload).2.1,
   (mailbox_read_peek 2 initPayload).2.2 none (by decide)⟩

/-- C9: a successful camera iteration with no detection stores only
landmarks = None; the timestamp, image_w, image_h, mid_hip_z and fps keys
all keep the values they had before the iteration. -/
theorem no_detection_writes_only_landmarks (it : FrameIter) (p : Payload)
    (h : it.detection = none) :
    (iterWrite it p).landmarks = none ∧
    (iterWrite it p).timestamp = p.timestamp ∧
    (iterWrite it p).image_w = p.image_w ∧
    (iterWrite it p).image_h = p.image_h ∧
    (iterWrite it p).mid_hip_z = p.mid_hip_z ∧
    (iterWrite it p).fps = p.fps := by
  simp [iterWrite, h, writeNoDetection]

/-- A concrete no-detection iteration whose capture-time values differ from
those of iterD, so preservation is visible. -/
def frameND : FrameIter :=
  { timestamp := 9, detection := none, w := 111, h := 222, fps := 5, qPressed := false }

/-- Witness for no_detection_writes_only_landmarks: a no-detection iteration
applied to the full payload of iterD clears landmarks and keeps all other
fields of iterD. -/
theorem no_detection_writes_only_landmarks_witness :
    (iterWrite frameND (fullPayload iterD)).landmarks = none ∧
    (iterWrite frameND (fullPayload iterD)).timestamp = (fullPayload iterD).timestamp ∧
    (iterWrite frameND (fullPayload iterD)).image_w = (fullPayload iterD).image_w ∧
    (iterWrite frameND (fullPayload iterD)).image_h = (fullPayload iterD).image_h ∧
    (iterWrite frameND (fullPayload iterD)).mid_hip_z = (fullPayload iterD).mid_hip_z ∧
    (iterWrite frameND (fullPayload iterD)).fps = (fullPayload iterD).fps :=
  no_detection_writes_only_landmarks frameND (fullPayload iterD) (by decide)

/-- C10: get_payload returns None exactly when the landmarks entry of the
stored dict is None, and otherwise returns a shallow copy of the stored
dict. The initial dict of main and any dict after a no-detection write both
read as None, so an empty mailbox and a stored no-detection payload are
indistinguishable to the broadcast loop. -/
theorem get_payload_none_iff_landmarks (p q : Payload) :
    (get_payload p = none ↔ p.landmarks = none) ∧
    (p.landmarks ≠ none → get_payload p = some p) ∧
    get_payload initPayload = none ∧
    get_payload (writeNoDetection q) = none := by
  refine ⟨?_, ?_, rfl, rfl⟩
  · unfold get_payload
    split <;> simp_all
  · intro h
    unfold get_payload
    rw [if_neg h]

/-- Witness for get_payload_none_iff_landmarks at concrete dicts: the full
payload of iterD reads back as itself, and the initial dict reads as None
with landmarks None. -/
theorem get_payload_none_iff_landmarks_witness :
    (get_payload (fullPayload iterD) = none ↔ (fullPayload iterD).landmarks = none) ∧
    get_payload (fullPayload iterD) = some (fullPayload iterD) ∧
    get_payload initPayload = none ∧
    get_payload (writeNoDetection (fullPayload iterD)) = none :=
  ⟨(get_payload_none_iff_landmarks (fullPayload iterD) (fullPayload iterD)).1,
   (get_payload_none_iff_landmarks (fullPayload iterD) (fullPayload iterD)).2.1 (by decide),
   (get_payload_none_iff_landmarks (fullPayload iterD) (fullPayload iterD)).2.2.1,
   (get_payload_none_iff_landmarks (fullPayload iterD) (fullPayload iterD)).2.2.2⟩

/-- C3: a tick whose mailbox read is None, or whose payload has a None
landmarks entry, sends nothing to any subscriber; otherwise the tick equals
one json_dumps serialization of the payload dispatched to every subscriber
of the registry snapshot, the same single message for all, and the registry
is unchanged. -/
theorem broadcast_skip_and_single_payload (webs : List Subscriber) (pay : Payload) :
    broadcastTick none webs = ([], webs) ∧
    (pay.landmarks = none → broadcastTick (some pay) webs = ([], webs)) ∧
    (pay.landmarks ≠ none →
      broadcastTick (some pay) webs =
        (webs.map (fun w => (w, sendTo (json_dumps pay) w)), webs)) := by
  refine ⟨rfl, ?_, ?_⟩
  · intro h
    simp only [broadcastTick, h]
  · intro h
    cases hl : pay.landmarks with
    | none => exact absurd hl h
    | some lms =>
      simp only [broadcastTick, hl]

/-- Witness for broadcast_skip_and_single_payload: an empty read sends
nothing, a stored no-detection dict sends nothing, and a full payload is
dispatched as one message to the single registered subscriber. -/
theorem broadcast_skip_and_single_payload_witness :
    broadcastTick none [sub2] = ([], [sub2]) ∧
    broadcastTick (some initPayload) [sub2] = ([], [sub2]) ∧
    broadcastTick (some (fullPayload iterD)) [sub2] =
      ([(sub2, sendTo (json_dumps (fullPayload iterD)) sub2)], [sub2]) :=
  ⟨(broadcast_skip_and_single_payload [sub2] initPayload).1,
   (broadcast_skip_and_single_payload [sub2] initPayload).2.1 rfl,
   (broadcast_skip_and_single_payload [sub2] (fullPayload iterD)).2.2 (by decide)⟩

/-- C2 counterexample: with a broken subscriber and two healthy ones, the
broken send fails and the two healthy subscribers are still delivered the
message, but the broken subscriber is still in the registry after the tick:
broadcast_loop never removes it, the claimed removal does not happen. -/
theorem broadcast_failure_not_removed_cex :
    subBroken.sendFails = true ∧
    (subBroken, SendResult.failed) ∈
      (broadcastTick (some (fullPayload iterD)) [subBroken, sub2, sub3]).1 ∧
    (sub2, SendResult.delivered (json_dumps (fullPayload iterD))) ∈
      (broadcastTick (some (fullPayload iterD)) [subBroken, sub2, sub3]).1 ∧
    (sub3, SendResult.delivered (json_dumps (fullPayload iterD))) ∈
      (broadcastTick (some (fullPayload iterD)) [subBroken, sub2, sub3]).1 ∧
    (broadcastTick (some (fullPayload iterD)) [subBroken, sub2, sub3]).2 =
      [subBroken, sub2, sub3] :=
  ⟨rfl, List.Mem.head _, List.Mem.tail _ (List.Mem.head _),
   List.Mem.tail _ (List.Mem.tail _ (List.Mem.head _)), rfl⟩

/-- C2 amended: a per-subscriber send failure is caught (the exception is
captured as a value by the gather), every subscriber of the tick snapshot
still gets its own send and every healthy one is delivered the message, the
tick itself always completes, and the registry is left unchanged: in
particular the failing subscriber is NOT removed by the broadcast loop;
removal happens only in the connection handler when the connection itself
closes or errors. -/
theorem broadcast_failure_isolated_no_removal (pay : Payload) (webs : List Subscriber)
    (h : pay.landmarks ≠ none) :
    (broadcastTick (some pay) webs).2 = webs ∧
    (∀ w ∈ webs, (w, sendTo (json_dumps pay) w) ∈ (broadcastTick (some pay) webs).1) ∧
    (∀ w ∈ webs, w.sendFails = false →
      (w, SendResult.delivered (json_dumps pay)) ∈ (broadcastTick (some pay) webs).1) := by
  cases hl : pay.landmarks with
  | none => exact absurd hl h
  | some lms =>
    have ht : broadcastTick (some pay) webs =
        (webs.map (fun w => (w, sendTo (json_dumps pay) w)), webs) := by
      simp only [broadcastTick, hl]
    rw [ht]
    refine ⟨rfl, ?_, ?_⟩
    · intro w hw
      exact List.mem_map.mpr ⟨w, hw, rfl⟩
    · intro w hw hf
      refine List.mem_map.mpr ⟨w, hw, ?_⟩
      simp [sendTo, hf]

/-- Witness for broadcast_failure_isolated_no_removal: with the broken
subscriber and one healthy subscriber registered, the registry after the
tick still holds both, and the healthy one is delivered the message. -/
theorem broadcast_failure_isolated_no_removal_witness :
    (broadcastTick (some (fullPayload iterD)) [subBroken, sub2]).2 = [subBroken, sub2] ∧
    (sub2, SendResult.delivered (json_dumps (fullPayload iterD))) ∈
      (broadcastTick (some (fullPayload iterD)) [subBroken, sub2]).1 :=
  ⟨(broadcast_failure_isolated_no_removal (fullPayload iterD) [subBroken, sub2] (by decide)).1,
   (broadcast_failure_isolated_no_removal (fullPayload iterD) [subBroken, sub2] (by decide)).2.2
     sub2 (by decide) rfl⟩

/-- C4 counterexample: at elapsed equal to FRAME_DELAY, the budget is
exactly used up, so the claimed sleep is max(0, target - elapsed) = 0; the
camera worker indeed does not sleep, but the broadcast loop awaits a fixed
1/1000, so the two loops do not pace identically and the broadcast loop does
sleep on overrun. -/
theorem pacing_not_identical_cex :
    camera_sleep FRAME_DELAY = 0 ∧
    broadcast_sleep FRAME_DELAY = 1 / 1000 ∧
    broadcast_sleep FRAME_DELAY ≠ 0 ∧
    camera_sleep FRAME_DELAY ≠ broadcast_sleep FRAME_DELAY := by
  refine ⟨?_, ?_, ?_, ?_⟩ <;>
    norm_num [camera_sleep, broadcast_sleep, FRAME_DELAY, TARGET_FPS]

/-- C4 amended: the camera worker sleeps exactly max(0, FRAME_DELAY -
elapsed), with no sleep on overrun; the broadcast loop awaits FRAME_DELAY -
elapsed while there is budget left but awaits a fixed 1/1000 when the tick
overruns, so the two pacings agree only when the budget is not exhausted. -/
theorem pacing_amended (e : ℚ) :
    camera_sleep e = max 0 (FRAME_DELAY - e) ∧
    (FRAME_DELAY - e > 0 → broadcast_sleep e = FRAME_DELAY - e) ∧
    (FRAME_DELAY - e ≤ 0 → broadcast_sleep e = 1 / 1000) := by
  refine ⟨?_, ?_, ?_⟩
  · dsimp only [camera_sleep]
    rcases le_or_lt (FRAME_DELAY - e) 0 with h | h
    · rw [if_neg (not_lt.mpr h), max_eq_left h]
    · rw [if_pos h, max_eq_right h.le]
  · intro h
    dsimp only [broadcast_sleep]
    rw [if_pos h]
  · intro h
    dsimp only [broadcast_sleep]
    rw [if_neg (not_lt.mpr h)]

/-- Witness for pacing_amended: at elapsed 1 the camera worker sleeps the
max form and the broadcast loop awaits 1/1000; at elapsed 0 the broadcast
loop awaits the remaining budget. -/
theorem pacing_amended_witness :
    camera_sleep 1 = max 0 (FRAME_DELAY - 1) ∧
    broadcast_sleep 0 = FRAME_DELAY - 0 ∧
    broadcast_sleep 1 = 1 / 1000 :=
  ⟨(pacing_amended 1).1,
   (pacing_amended 0).2.1 (by norm_num [FRAME_DELAY, TARGET_FPS]),
   (pacing_amended 1).2.2 (by norm_num [FRAME_DELAY, TARGET_FPS])⟩

/-- C8: over a run of successful iterations, none of which pressed q,
followed by a failed cap.read, the camera worker performs exactly one
payload write per successful iteration and none for the failing one: the
write count equals the number of successful iterations, everything after the
failure is never processed because the loop exits, and the stop event is set
on the way out. -/
theorem camera_worker_read_fail_no_write (pre : List FrameIter) (post : List CamInput)
    (s : Payload) (h : ∀ it ∈ pre, it.qPressed = false) :
    (camRun (pre.map CamInput.frame ++ CamInput.readFail :: post) s).2.1 = pre.length ∧
    (camRun (pre.map CamInput.frame ++ CamInput.readFail :: post) s).2.2 = true := by
  induction pre generalizing s with
  | nil => exact ⟨rfl, rfl⟩
  | cons it rest ih =>
    have hq : it.qPressed = false := h it (List.mem_cons_self it rest)
    have h2 : ∀ i ∈ rest, i.qPressed = false := fun i hi => h i (List.mem_cons_of_mem it hi)
    have IH := ih (iterWrite it s) h2
    constructor
    · simp only [List.map_cons, List.cons_append, camRun, hq, Bool.false_eq_true, if_false,
        List.length_cons]
      exact congrArg (fun n => n + 1) IH.1
    · simp only [List.map_cons, List.cons_append, camRun, hq, Bool.false_eq_true, if_false]
      exact IH.2

/-- A concrete successful detection iteration with q not pressed. -/
def frameW : FrameIter :=
  { timestamp := 3, detection := some [rawA], w := 4, h := 5, fps := 6, qPressed := false }

/-- Witness for camera_worker_read_fail_no_write: one successful iteration
followed by a failed read yields exactly one write and a set stop event. -/
theorem camera_worker_read_fail_no_write_witness :
    (camRun [CamInput.frame frameW, CamInput.readFail] initPayload).2.1 = 1 ∧
    (camRun [CamInput.frame frameW, CamInput.readFail] initPayload).2.2 = true :=
  camera_worker_read_fail_no_write [frameW] [] initPayload (by decide)

/-- C1 (failing input): the camera worker completed the full six-store write
for iteration A; during the write for iteration B, get_payload runs after
the first store (the timestamp) and before the landmarks store. The read
then returns a payload, not None, whose timestamp comes from B while its
landmarks, image_w, image_h, mid_hip_z and fps all come from A: a mix of old
and new fields, equal to neither complete snapshot, contradicting the
claimed atomicity. -/
theorem mailbox_torn_read_at_failing_input :
    get_payload tornReadState =
      some { timestamp := some iterB.timestamp,
             landmarks := some (landmarks_to_normalized_list iterA.lms),
             image_w := some iterA.w, image_h := some iterA.h,
             mid_hip_z := some (compute_mid_hip_z iterA.lms),
             fps := some iterA.fps } ∧
    iterB.timestamp ≠ iterA.timestamp ∧
    landmarks_to_normalized_list iterB.lms ≠ landmarks_to_normalized_list iterA.lms ∧
    get_payload tornReadState ≠ some (fullPayload iterA) ∧
    get_payload tornReadState ≠ some (fullPayload iterB) := by
  have h0 : get_payload tornReadState =
      some { timestamp := some iterB.timestamp,
             landmarks := some (landmarks_to_normalized_list iterA.lms),
             image_w := some iterA.w, image_h := some iterA.h,
             mid_hip_z := some (compute_mid_hip_z iterA.lms),
             fps := some iterA.fps } := rfl
  have hts : iterB.timestamp ≠ iterA.timestamp := by
    show (2 : ℚ) ≠ 1
    norm_num
  have hlm : landmarks_to_normalized_list iterB.lms ≠ landmarks_to_normalized_list iterA.lms := by
    intro hc
    have hlen := congrArg List.length hc
    simp [landmarks_to_normalized_list, iterA, iterB] at hlen
  refine ⟨h0, hts, hlm, ?_, ?_⟩
  · intro hc
    rw [h0] at hc
    have h1 := Option.some_injective _ hc
    have ht := congrArg Payload.timestamp h1
    exact hts (by simpa [fullPayload] using ht)
  · intro hc
    rw [h0] at hc
    have h1 := Option.some_injective _ hc
    have hl := congrArg Payload.landmarks h1
    have hl2 : landmarks_to_normalized_list iterA.lms = landmarks_to_normalized_list iterB.lms := by
      simpa [fullPayload] using hl
    exact hlm hl2.symm
